import Mathlib

/-!
Shallow embedding of the customer-support chat backend
(`src/agents-postgresql/app.py`, `src/agents-postgresql/database.py`,
`src/agents-sql/app.py`).

Conventions of the embedding:
* SQL tables are Lean lists of records; a `Database` value is the storage state.
* Machine timestamps and calendar dates are `Nat` instants; the `strftime`
  rendering of an instant is abstracted as its decimal string (it is injective
  and monotone, which is all the claims use).
* Monetary amounts are `Nat` cents; Python's `{:.2f}` formatting becomes
  `fmt2` below.
* `ORDER BY ... DESC` is `List.insertionSort` with the reversed comparison,
  `LIMIT n` / `TOP n` is `List.take n`, SQL `NULL` for an empty `SUM` is
  `Option.none`, and inner joins are modelled by per-key lookups that drop
  unmatched rows.
* Exceptions raised by the drivers or the model capability are injected by
  explicit oracles (a `Bool` per fallible step, or an `Option String`
  exception message), since their occurrence is decided by the environment.
-/

namespace LabChat

/-- Row of the `customers` table (`customers(customer_id, first_name,
last_name, email, phone)`). -/
structure Customer where
  customer_id : Nat
  first_name : String
  last_name : String
  email : String
  phone : String
deriving DecidableEq

/-- Row of the `orders` table. -/
structure Order where
  order_id : Nat
  customer_id : Nat
  order_date : Nat
  total_amount : Nat
  status : String
deriving DecidableEq

/-- Row of the `order_items` table. -/
structure OrderItem where
  order_id : Nat
  product_id : Nat
deriving DecidableEq

/-- Row of the `products` table. -/
structure Product where
  product_id : Nat
  product_name : String
deriving DecidableEq

/-- Row of the `conversation_history` table; `id` and `timestamp` are
server-assigned at insert. -/
structure HistoryRow where
  id : Nat
  customer_id : Nat
  user_message : String
  ai_response : String
  timestamp : Nat
deriving DecidableEq

/-- The whole relational store, shared by both backends (they differ only in
column naming and SQL dialect, not in logical schema). -/
structure Database where
  customers : List Customer
  orders : List Order
  order_items : List OrderItem
  products : List Product
  conversation_history : List HistoryRow
deriving DecidableEq

/-- One conversation turn as returned by `get_conversation_history`: the
dictionary `\x7b"user": ..., "assistant": ..., "timestamp": ...\x7d`. -/
structure Turn where
  user : String
  assistant : String
  timestamp : Nat
deriving DecidableEq

/-- One role-tagged chat message, as sent to the model capability. -/
structure Message where
  role : String
  content : String
deriving DecidableEq

/-- One element of `recent_orders` as built by `get_customer_context`. -/
structure OrderSummary where
  order_id : Nat
  date : String
  amount : Nat
  status : String
  products : String
deriving DecidableEq

/-- The customer-context dictionary built by `get_customer_context`. -/
structure CustomerContext where
  name : String
  email : String
  phone : String
  total_orders : Nat
  total_spent : Nat
  recent_orders : List OrderSummary
deriving DecidableEq

/-- Two-digit rendering of the cents part, for `\x7b:.2f\x7d` on a
cents-valued amount. -/
def pad2 (n : Nat) : String :=
  if n < 10 then "0" ++ toString n else toString n

/-- Python `\x7bx:.2f\x7d` on a `Nat`-cents amount. -/
def fmt2 (cents : Nat) : String :=
  toString (cents / 100) ++ "." ++ pad2 (cents % 100)

/-- Rendering of a date instant, standing for `strftime("%Y-%m-%d")`. -/
def strftimeDate (d : Nat) : String := toString d

/-- SQL `SUM` over a bag of non-NULL values: `NULL` (`none`) on the empty
bag, the sum otherwise. -/
def sqlSum (l : List Nat) : Option Nat :=
  match l with
  | [] => none
  | _ => some (l.foldl (· + ·) 0)

/-- SQL `STRING_AGG(name, ', ')` over one group. -/
def joinComma (names : List String) : String :=
  String.intercalate ", " names

/-!
## `get_conversation_history`

`PostgreSQLAdapter.get_conversation_history` (database.py 59-88),
`SQLDatabaseAdapter.get_conversation_history` (database.py 186-211) and the
agents-sql `get_conversation_history` (app.py 107-124) run the same logical
query — matching rows, `ORDER BY timestamp DESC`, `LIMIT limit` / `TOP
(limit)` — and then build the dictionaries from `reversed(rows)`.
-/

/-- Result set of the history query: rows of `customer_id`, newest first,
truncated to `limit`. -/
def historyQuery (rows : List HistoryRow) (customer_id : Nat) (limit : Nat) :
    List HistoryRow :=
  ((List.insertionSort (fun a b => b.timestamp ≤ a.timestamp)
      (rows.filter (fun r => r.customer_id == customer_id))).take limit)

/-- Shared body of the three `get_conversation_history` implementations. -/
def get_conversation_history (rows : List HistoryRow) (customer_id : Nat)
    (limit : Nat := 5) : List Turn :=
  ((historyQuery rows customer_id limit).reverse).map
    (fun r => ⟨r.user_message, r.ai_response, r.timestamp⟩)

/-!
## Message assembly

`generate_ai_response` in both apps builds
`messages = [system] + [user, assistant]*history + [user new_message]`
(agents-postgresql app.py 87-95, agents-sql app.py 153-159); the apps differ
only in the system-message template.
-/

/-- Message-list assembly shared by both `generate_ai_response` bodies. -/
def build_messages (system_message : String) (history : List Turn)
    (user_message : String) : List Message :=
  ⟨"system", system_message⟩ ::
    (history.flatMap (fun entry => [⟨"user", entry.user⟩, ⟨"assistant", entry.assistant⟩]) ++
      [⟨"user", user_message⟩])

/-- One `Recent Orders` line of the agents-postgresql system message
(app.py 81). -/
def orderLinePg (o : OrderSummary) : String :=
  "- Order #" ++ toString o.order_id ++ ": " ++ o.products ++ " ($" ++
    fmt2 o.amount ++ ", Status: " ++ o.status ++ ", Date: " ++ o.date ++ ")"

/-- System message of agents-postgresql `generate_ai_response`
(app.py 71-84). -/
def system_message_pg (c : CustomerContext) : String :=
  "You are a helpful customer service AI assistant for an e-commerce company.\n    \nCustomer Information:\n- Name: " ++
    c.name ++ "\n- Email: " ++ c.email ++ "\n- Phone: " ++ c.phone ++
    "\n- Total Orders: " ++ toString c.total_orders ++ "\n- Total Spent: $" ++
    fmt2 c.total_spent ++ "\n\nRecent Orders:\n" ++
    String.intercalate "\n" (c.recent_orders.map orderLinePg) ++
    "\n\nProvide helpful, personalized responses based on this customer's history. Be friendly and professional."

/-- One `Recent Orders` line of the agents-sql system prompt (app.py 148). -/
def orderLineSql (o : OrderSummary) : String :=
  "- Order #" ++ toString o.order_id ++ ": " ++ o.products ++ " ($" ++
    fmt2 o.amount ++ ", " ++ o.status ++ ", " ++ o.date ++ ")"

/-- System prompt of agents-sql `generate_ai_response` (app.py 136-151). -/
def system_prompt_sql (c : CustomerContext) : String :=
  "\nYou are a helpful customer support AI for an e-commerce company.\n\nCustomer:\n- Name: " ++
    c.name ++ "\n- Email: " ++ c.email ++ "\n- Phone: " ++ c.phone ++
    "\n- Orders: " ++ toString c.total_orders ++ "\n- Total Spent: $" ++
    fmt2 c.total_spent ++ "\n\nRecent Orders:\n" ++
    String.intercalate "\n" (c.recent_orders.map orderLineSql) ++ "\n"

/-!
## `get_customer_context`

`PostgreSQLAdapter.get_customer_context` (database.py 90-151) and the
agents-sql / `SQLDatabaseAdapter` variant (app.py 50-96, database.py
213-267) run the same two queries; they differ only in how a NULL
`SUM(total_amount)` becomes zero (query-level `COALESCE` for PostgreSQL, the
Python falsy check `float(x) if x else 0` for the SQL dialect).
-/

/-- Result row of the aggregate query (database.py 95-106 / app.py 54-62):
customer columns, `COUNT(o.order_id)` and the raw `SUM(o.total_amount)`
(`none` = SQL NULL when the left join matches no order). -/
def aggregateQuery (db : Database) (customer_id : Nat) :
    Option (Customer × Nat × Option Nat) :=
  match db.customers.find? (fun c => c.customer_id == customer_id) with
  | none => none
  | some c =>
      let os := db.orders.filter (fun o => o.customer_id == customer_id)
      some (c, os.length, sqlSum (os.map (fun o => o.total_amount)))

/-- Product names inner-joined to one order through `order_items` and
`products` (an item whose product row is missing joins to nothing). -/
def orderProducts (db : Database) (order_id : Nat) : List String :=
  (db.order_items.filter (fun oi => oi.order_id == order_id)).filterMap
    (fun oi =>
      (db.products.find? (fun p => p.product_id == oi.product_id)).map
        (fun p => p.product_name))

/-- Result of the detail query (database.py 114-127 / app.py 68-77):
`orders JOIN order_items JOIN products`, grouped per order, `ORDER BY
order_date DESC`, `LIMIT 5` / `TOP 5`. The inner joins keep a group only
when the order has at least one item joining to a product. -/
def recentOrdersQuery (db : Database) (customer_id : Nat) : List OrderSummary :=
  ((List.insertionSort (fun a b => b.order_date ≤ a.order_date)
        ((db.orders.filter (fun o => o.customer_id == customer_id)).filter
          (fun o => !(orderProducts db o.order_id).isEmpty))).take 5).map
    (fun o =>
      { order_id := o.order_id
        date := strftimeDate o.order_date
        amount := o.total_amount
        status := o.status
        products := joinComma (orderProducts db o.order_id) })

/-- Python `float(x) if x else 0` applied to a nullable sum: NULL and the
falsy value `0` both map to `0`. -/
def pyFloatOrZero (s : Option Nat) : Nat :=
  match s with
  | none => 0
  | some v => if v == 0 then 0 else v

/-- `PostgreSQLAdapter.get_customer_context` (database.py 90-151);
`total_spent` uses the query-level `COALESCE(SUM(...), 0)`. -/
def get_customer_context_pg (db : Database) (customer_id : Nat) :
    Option CustomerContext :=
  match aggregateQuery db customer_id with
  | none => none
  | some (c, total_orders, spent) =>
      some
        { name := c.first_name ++ " " ++ c.last_name
          email := c.email
          phone := c.phone
          total_orders := total_orders
          total_spent := spent.getD 0
          recent_orders := recentOrdersQuery db customer_id }

/-- Agents-sql `get_customer_context` (app.py 50-96), identical to
`SQLDatabaseAdapter.get_customer_context` (database.py 213-267);
`total_spent` uses the in-code falsy check on the NULL-able sum. -/
def get_customer_context_sql (db : Database) (customer_id : Nat) :
    Option CustomerContext :=
  match aggregateQuery db customer_id with
  | none => none
  | some (c, total_orders, spent) =>
      some
        { name := c.first_name ++ " " ++ c.last_name
          email := c.email
          phone := c.phone
          total_orders := total_orders
          total_spent := pyFloatOrZero spent
          recent_orders := recentOrdersQuery db customer_id }

/-!
## `store_conversation` / `save_conversation`

All three writers insert one `conversation_history` row whose `id` and
`timestamp` are server-assigned (modelled as the `next_id` / `now`
parameters).  They differ in what they return:
`PostgreSQLAdapter.store_conversation` fetches `RETURNING id` (database.py
36-57), `SQLDatabaseAdapter.store_conversation` fetches `OUTPUT INSERTED.ID`
(database.py 166-184), and the agents-sql `save_conversation` (app.py
98-105) returns nothing (Python `None`).
-/

/-- The single-row `INSERT INTO conversation_history` shared by all three
writers. -/
def insertHistoryRow (db : Database) (next_id now customer_id : Nat)
    (user_message ai_response : String) : Database :=
  { db with
      conversation_history :=
        db.conversation_history ++
          [⟨next_id, customer_id, user_message, ai_response, now⟩] }

/-- `PostgreSQLAdapter.store_conversation`: insert and return the
`RETURNING id` value. -/
def pg_store_conversation (db : Database) (next_id now customer_id : Nat)
    (user_message ai_response : String) : Database × Option Nat :=
  (insertHistoryRow db next_id now customer_id user_message ai_response,
    some next_id)

/-- `SQLDatabaseAdapter.store_conversation`: insert and return the
`OUTPUT INSERTED.ID` value. -/
def sqladapter_store_conversation (db : Database)
    (next_id now customer_id : Nat) (user_message ai_response : String) :
    Database × Option Nat :=
  (insertHistoryRow db next_id now customer_id user_message ai_response,
    some next_id)

/-- Agents-sql `save_conversation`: insert, commit, and fall off the end of
the function — the Python return value is `None`. -/
def save_conversation (db : Database) (next_id now customer_id : Nat)
    (user_message ai_response : String) : Database × Option Nat :=
  (insertHistoryRow db next_id now customer_id user_message ai_response,
    none)

/-!
## `generate_ai_response` and the `/api/chat` route

The model capability is an oracle `List Message → String`; the returned
triple instruments the orchestration's observable effects: the reply text,
the storage state after the call, and whether the model capability was
invoked.
-/

/-- Outcome of one `generate_ai_response` run. -/
structure GenResult where
  reply : String
  db : Database
  modelCalled : Bool
deriving DecidableEq

/-- Agents-sql `generate_ai_response` (app.py 129-170). -/
def generate_ai_response_sql (db : Database) (model : List Message → String)
    (next_id now customer_id : Nat) (user_message : String) : GenResult :=
  match get_customer_context_sql db customer_id with
  | none => ⟨"Customer not found. Please check your customer ID.", db, false⟩
  | some customer =>
      let history := get_conversation_history db.conversation_history customer_id 5
      let messages := build_messages (system_prompt_sql customer) history user_message
      let ai_text := model messages
      let db2 :=
        (save_conversation db next_id now customer_id user_message ai_text).1
      ⟨ai_text, db2, true⟩

/-- The fixed not-found message of agents-postgresql (app.py 65); its
apostrophe is spelled via the code point 39 to keep quoting uniform. -/
def pg_not_found_message : String :=
  "I couldn" ++ String.singleton (Char.ofNat 39) ++
    "t find your customer information. Please verify your customer ID."

/-- Agents-postgresql `generate_ai_response` (app.py 50-110). -/
def generate_ai_response_pg (db : Database) (model : List Message → String)
    (next_id now customer_id : Nat) (user_message : String) : GenResult :=
  match get_customer_context_pg db customer_id with
  | none =>
      ⟨pg_not_found_message, db, false⟩
  | some customer_context =>
      let history := get_conversation_history db.conversation_history customer_id 5
      let messages :=
        build_messages (system_message_pg customer_context) history user_message
      let ai_response := model messages
      let db2 :=
        (pg_store_conversation db next_id now customer_id user_message ai_response).1
      ⟨ai_response, db2, true⟩

/-- What the `/api/chat` route hands back to the HTTP layer: either the JSON
success payload or an error payload with its HTTP status. -/
inductive ChatResult where
  | response (text : String)
  | errorPayload (text : String) (status : Nat)
deriving DecidableEq

/-- The `/api/chat` route body, identical in both apps (agents-postgresql
app.py 119-129, agents-sql app.py 179-189): validate the two request fields
with Python falsy checks (absent, `0`, or `""` all fail), then run
`generate_ai_response` inside `try`; an exception `e` becomes
`(\x7b"error": str(e)\x7d, 500)` — `run` returns `.error msg` when the
environment raises, carrying the exception's message. -/
def chat (run : Nat → String → Except String String)
    (customer_id : Option Nat) (message : Option String) : ChatResult :=
  match customer_id, message with
  | some cid, some msg =>
      if cid == 0 || msg == "" then
        .errorPayload "customer_id and message required" 400
      else
        match run cid msg with
        | .ok reply => .response reply
        | .error e => .errorPayload e 500
  | _, _ => .errorPayload "customer_id and message required" 400

/-- Error text of a chat outcome, `none` on the success payload. -/
def errText : ChatResult → Option String
  | .response _ => none
  | .errorPayload t _ => some t

/-- Boolean substring test used to state the credential-leak claims
(prefix-at-head helper). -/
def charsHaveHead (needle hay : List Char) : Bool :=
  match needle, hay with
  | [], _ => true
  | _ :: _, [] => false
  | n :: ns, h :: hs => n == h && charsHaveHead ns hs

/-- Boolean substring test on character lists. -/
def charsHaveSub (needle hay : List Char) : Bool :=
  match hay with
  | [] => needle.isEmpty
  | _ :: hs => charsHaveHead needle hay || charsHaveSub needle hs

/-- `containsStr hay needle` is `true` iff `needle` occurs in `hay`. -/
def containsStr (hay needle : String) : Bool :=
  charsHaveSub needle.toList hay.toList

/-!
## `DatabaseFactory.create_adapter`

database.py 286-320: lower-case the identifier, match it against the closed
set `sql` / `cosmos` / `postgresql` (building only a connection *string* for
the chosen adapter — no connection is opened until a repository operation
runs), and raise `ValueError(f"Unknown database type: \x7bdb_type\x7d")`
otherwise — note that the message interpolates the already-lowercased
variable. -/
inductive AdapterKind where
  | sql
  | cosmos
  | postgresql
deriving DecidableEq

/-- Python `db_type.lower()`; the recognized identifiers are ASCII, where
character-wise `Char.toLower` coincides with Python lowercasing. -/
def strToLower (s : String) : String :=
  String.mk (s.data.map Char.toLower)

/-- `DatabaseFactory.create_adapter`; `.error` is the raised `ValueError`'s
message (the spec's ConfigurationError). -/
def create_adapter (db_type : String) : Except String AdapterKind :=
  let t := strToLower db_type
  if t == "sql" then .ok .sql
  else if t == "cosmos" then .ok .cosmos
  else if t == "postgresql" then .ok .postgresql
  else .error ("Unknown database type: " ++ t)

/-!
## Connection lifecycle traces

For claim C8 each repository operation is replayed as a sequence of
resource events over an oracle saying which driver step raises.
`PostgreSQLAdapter` (database.py 36-151) opens with `psycopg2.connect` and
closes with an explicit `conn.close()` on the straight-line path only — its
`try/except` blocks re-raise without closing.  `SQLDatabaseAdapter`
(database.py 166-267) and the agents-sql data-access functions (app.py
50-124) scope the connection in a `with` block, leaving the block (and, via
CPython's frame teardown, releasing the connection) on every exit path.
-/

/-- Count of connections opened and closed by one operation. -/
structure ConnTrace where
  opened : Nat
  closed : Nat
deriving DecidableEq

/-- A resource-instrumented action: from a trace, an outcome (`.error` = a
propagating exception) and the trace afterwards. -/
def DbAct : Type := ConnTrace → Except String Unit × ConnTrace

/-- Sequencing: run `b` only if `a` did not raise. -/
def seqAct (a b : DbAct) : DbAct := fun tr =>
  match a tr with
  | (.ok _, tr2) => b tr2
  | (.error e, tr2) => (.error e, tr2)

/-- `psycopg2.connect` / `pyodbc.connect`: opens a connection, or raises
without opening one. -/
def openConn (ok : Bool) : DbAct := fun tr =>
  if ok then (.ok (), { tr with opened := tr.opened + 1 })
  else (.error "connection failed", tr)

/-- Explicit `conn.close()`. -/
def closeConn : DbAct := fun tr =>
  (.ok (), { tr with closed := tr.closed + 1 })

/-- A driver call (`cursor.execute`, `fetchone`, `fetchall`, `commit`) that
either succeeds without touching the connection count or raises. -/
def sqlStep (ok : Bool) (msg : String) : DbAct := fun tr =>
  if ok then (.ok (), tr) else (.error msg, tr)

/-- A `with get_db_connection() as conn:` block: the connection opens on
entry and is released when the block is left, normally or exceptionally. -/
def withConn (ok : Bool) (body : DbAct) : DbAct := fun tr =>
  if ok then
    let (r, tr2) := body { tr with opened := tr.opened + 1 }
    (r, { tr2 with closed := tr2.closed + 1 })
  else (.error "connection failed", tr)

/-- Which driver steps of one operation succeed, plus whether the aggregate
query finds the customer (the early-return branch of
`get_customer_context`). -/
structure StepEnv where
  connectOk : Bool
  executeOk : Bool
  fetchOk : Bool
  commitOk : Bool
  execute2Ok : Bool
  fetch2Ok : Bool
  customerFound : Bool
deriving DecidableEq

/-- Connection events of `PostgreSQLAdapter.store_conversation`
(database.py 36-57): connect, execute the insert, fetch the returned id,
commit, close. -/
def pg_store_conversation_conns (env : StepEnv) : DbAct :=
  seqAct (openConn env.connectOk)
    (seqAct (sqlStep env.executeOk "execute failed")
      (seqAct (sqlStep env.fetchOk "fetchone failed")
        (seqAct (sqlStep env.commitOk "commit failed") closeConn)))

/-- Connection events of `PostgreSQLAdapter.get_conversation_history`
(database.py 59-88): connect, execute, fetchall, close. -/
def pg_get_conversation_history_conns (env : StepEnv) : DbAct :=
  seqAct (openConn env.connectOk)
    (seqAct (sqlStep env.executeOk "execute failed")
      (seqAct (sqlStep env.fetchOk "fetchall failed") closeConn))

/-- Connection events of `PostgreSQLAdapter.get_customer_context`
(database.py 90-151): connect, aggregate query, fetchone; when the customer
is absent, close and return early; otherwise detail query, fetchall,
close. -/
def pg_get_customer_context_conns (env : StepEnv) : DbAct :=
  seqAct (openConn env.connectOk)
    (seqAct (sqlStep env.executeOk "aggregate query failed")
      (seqAct (sqlStep env.fetchOk "fetchone failed")
        (if env.customerFound then
          seqAct (sqlStep env.execute2Ok "detail query failed")
            (seqAct (sqlStep env.fetch2Ok "fetchall failed") closeConn)
        else closeConn)))

/-- Connection events of `SQLDatabaseAdapter.store_conversation`
(database.py 166-184): a `with`-scoped connection around execute, fetch,
commit. -/
def sqladapter_store_conversation_conns (env : StepEnv) : DbAct :=
  withConn env.connectOk
    (seqAct (sqlStep env.executeOk "execute failed")
      (seqAct (sqlStep env.fetchOk "fetchone failed")
        (sqlStep env.commitOk "commit failed")))

/-- Connection events of `SQLDatabaseAdapter.get_conversation_history`
(database.py 186-211) and the agents-sql data-access readers: a
`with`-scoped connection around execute and fetchall. -/
def sqladapter_get_conversation_history_conns (env : StepEnv) : DbAct :=
  withConn env.connectOk
    (seqAct (sqlStep env.executeOk "execute failed")
      (sqlStep env.fetchOk "fetchall failed"))

/-- Connection events of `SQLDatabaseAdapter.get_customer_context`
(database.py 213-267): a `with`-scoped connection around both queries, with
the absent-customer early return inside the block. -/
def sqladapter_get_customer_context_conns (env : StepEnv) : DbAct :=
  withConn env.connectOk
    (seqAct (sqlStep env.executeOk "aggregate query failed")
      (seqAct (sqlStep env.fetchOk "fetchone failed")
        (if env.customerFound then
          seqAct (sqlStep env.execute2Ok "detail query failed")
            (sqlStep env.fetch2Ok "fetchall failed")
        else sqlStep true "early return")))

/-- The empty starting trace. -/
def noConns : ConnTrace := ⟨0, 0⟩

/-!
## Concrete storage states used by the witnesses and counterexamples
-/

/-- An empty store. -/
def emptyDb : Database := ⟨[], [], [], [], []⟩

/-- Five turns T1..T5 of customer 1, inserted in order with server-assigned
timestamps 1..5, plus an unrelated turn of customer 2. -/
def exRows : List HistoryRow :=
  [⟨1, 1, "u1", "a1", 1⟩, ⟨2, 1, "u2", "a2", 2⟩, ⟨3, 1, "u3", "a3", 3⟩,
   ⟨4, 1, "u4", "a4", 4⟩, ⟨5, 1, "u5", "a5", 5⟩, ⟨6, 2, "other", "reply", 6⟩]

/-- A store holding customer 1 with zero orders. -/
def zeroOrdersDb : Database :=
  { customers := [⟨1, "Ada", "Lovelace", "ada@example.com", "555-0001"⟩]
    orders := []
    order_items := []
    products := []
    conversation_history := [] }

/-- A store where customer 1 has order 10 (two line items, products
`Widget` and `Gadget`) and order 11 with no line items at all. -/
def lineItemsDb : Database :=
  { customers := [⟨1, "Ada", "Lovelace", "ada@example.com", "555-0001"⟩]
    orders :=
      [⟨10, 1, 20, 10000, "shipped"⟩,
       ⟨11, 1, 30, 5000, "pending"⟩]
    order_items := [⟨10, 100⟩, ⟨10, 101⟩]
    products := [⟨100, "Widget"⟩, ⟨101, "Gadget"⟩]
    conversation_history := [] }

/-!
## Helper lemmas
-/

/-- Length of the interleaved history block of `build_messages`. -/
theorem flatTurns_length (history : List Turn) :
    (history.flatMap (fun entry =>
      ([⟨"user", entry.user⟩, ⟨"assistant", entry.assistant⟩] : List Message))).length =
      2 * history.length := by
  induction history with
  | nil => rfl
  | cons h t ih =>
      simp only [List.flatMap_cons, List.length_append, List.length_cons,
        List.length_nil, ih]
      omega

/-- Roles of the interleaved history block of `build_messages`. -/
theorem flatTurns_roles (history : List Turn) :
    (history.flatMap (fun entry =>
      ([⟨"user", entry.user⟩, ⟨"assistant", entry.assistant⟩] : List Message))).map
        Message.role =
      history.flatMap (fun _ => ["user", "assistant"]) := by
  induction history with
  | nil => rfl
  | cons h t ih => simp [List.flatMap_cons, ih]

/-- The interleaved history block of `build_messages` holds no system
message. -/
theorem flatTurns_no_system (history : List Turn) :
    (history.flatMap (fun entry =>
      ([⟨"user", entry.user⟩, ⟨"assistant", entry.assistant⟩] : List Message))).countP
        (fun m => m.role == "system") = 0 := by
  induction history with
  | nil => rfl
  | cons h t ih => simp [List.flatMap_cons, List.countP_cons, List.countP_append, ih]

/-- The history result set is sorted newest-first. -/
theorem historyQuery_sorted_desc (rows : List HistoryRow) (cid limit : Nat) :
    (historyQuery rows cid limit).Pairwise
      (fun a b => b.timestamp ≤ a.timestamp) := by
  apply List.Pairwise.sublist (List.take_sublist _ _)
  exact @List.sorted_insertionSort HistoryRow
    (fun a b => b.timestamp ≤ a.timestamp) (fun a b => Nat.decLe _ _)
    ⟨fun a b => Nat.le_total b.timestamp a.timestamp⟩
    ⟨fun a b c hab hbc => Nat.le_trans hbc hab⟩ _

/-- With pairwise-distinct timestamps among the matching rows, the history
result set is strictly sorted newest-first. -/
theorem historyQuery_sorted_desc_strict (rows : List HistoryRow)
    (cid limit : Nat)
    (hdist : (rows.filter (fun r => r.customer_id == cid)).Pairwise
      (fun a b => a.timestamp ≠ b.timestamp)) :
    (historyQuery rows cid limit).Pairwise
      (fun a b => b.timestamp < a.timestamp) := by
  apply List.Pairwise.sublist (List.take_sublist _ _)
  have hperm := List.perm_insertionSort
    (fun a b : HistoryRow => b.timestamp ≤ a.timestamp)
    (rows.filter (fun r => r.customer_id == cid))
  have hne : (List.insertionSort
      (fun a b : HistoryRow => b.timestamp ≤ a.timestamp)
      (rows.filter (fun r => r.customer_id == cid))).Pairwise
        (fun a b => a.timestamp ≠ b.timestamp) :=
    (List.Perm.pairwise_iff (fun h => h.symm) hperm).mpr hdist
  have hle := @List.sorted_insertionSort HistoryRow
    (fun a b => b.timestamp ≤ a.timestamp) (fun a b => Nat.decLe _ _)
    ⟨fun a b => Nat.le_total b.timestamp a.timestamp⟩
    ⟨fun a b c hab hbc => Nat.le_trans hbc hab⟩
    (rows.filter (fun r => r.customer_id == cid))
  exact List.Pairwise.imp₂
    (fun a b h1 h2 => lt_of_le_of_ne h1 (Ne.symm h2)) hle hne

/-- Transport of a timestamp relation through the reverse and the
dictionary-building map of `get_conversation_history`. -/
theorem history_wrap {R : Nat → Nat → Prop} (rows : List HistoryRow)
    (cid limit : Nat)
    (h : (historyQuery rows cid limit).Pairwise
      (fun a b => R b.timestamp a.timestamp)) :
    (get_conversation_history rows cid limit).Pairwise
      (fun a b => R a.timestamp b.timestamp) := by
  unfold get_conversation_history
  rw [List.pairwise_map, List.pairwise_reverse]
  exact h

/-- Match-anything form of `DatabaseFactory.create_adapter`. -/
theorem create_adapter_cases (w : String) :
    create_adapter w =
      (if strToLower w = "sql" then .ok .sql
       else if strToLower w = "cosmos" then .ok .cosmos
       else if strToLower w = "postgresql" then .ok .postgresql
       else .error ("Unknown database type: " ++ strToLower w)) := by
  simp only [create_adapter, beq_iff_eq]

/-!
## Claims
-/

/-- C2: for every system message, history and new message, `build_messages`
returns `2 + 2*len(history)` messages; the first is the single system
message, each history turn contributes one user then one assistant message
in order, and the last message is a user message holding the new message
verbatim (the assembly is a pure function of its inputs, so they are not
mutated); with empty history exactly 2 messages (system, user) result. -/
theorem buildMessages_shape (system_message : String) (history : List Turn)
    (user_message : String) :
    (build_messages system_message history user_message).length =
      2 + 2 * history.length ∧
    (build_messages system_message history user_message).head? =
      some ⟨"system", system_message⟩ ∧
    (build_messages system_message history user_message).map Message.role =
      "system" :: (history.flatMap (fun _ => ["user", "assistant"]) ++ ["user"]) ∧
    (build_messages system_message history user_message).countP
      (fun m => m.role == "system") = 1 ∧
    (build_messages system_message history user_message).getLast? =
      some ⟨"user", user_message⟩ ∧
    (build_messages system_message [] user_message).length = 2 := by
  refine ⟨?_, rfl, ?_, ?_, ?_, rfl⟩
  · simp only [build_messages, List.length_cons, List.length_append,
      List.length_cons, List.length_nil, flatTurns_length]
    omega
  · simp [build_messages, flatTurns_roles]
  · simp [build_messages, List.countP_cons, List.countP_append, flatTurns_no_system]
  · show ((⟨"system", system_message⟩ :: history.flatMap _) ++
      [⟨"user", user_message⟩] : List Message).getLast? = _
    exact List.getLast?_concat _

/-- C1: `get_conversation_history` returns at most `limit` turns; the
returned sequence is chronological — strictly oldest-first whenever the
matching rows carry pairwise-distinct (server-assigned) timestamps — being
the reversal of the `limit` most-recent rows taken in descending timestamp
order; and zero matching rows yield the empty sequence, not an error. -/
theorem fetchHistory_bounded_chronological (rows : List HistoryRow)
    (customer_id limit : Nat) :
    (get_conversation_history rows customer_id limit).length ≤ limit ∧
    (get_conversation_history rows customer_id limit).Pairwise
      (fun a b => a.timestamp ≤ b.timestamp) ∧
    ((rows.filter (fun r => r.customer_id == customer_id)).Pairwise
        (fun a b => a.timestamp ≠ b.timestamp) →
      (get_conversation_history rows customer_id limit).Pairwise
        (fun a b => a.timestamp < b.timestamp)) ∧
    (rows.filter (fun r => r.customer_id == customer_id) = [] →
      get_conversation_history rows customer_id limit = []) := by
  refine ⟨?_, ?_, fun hdist => ?_, fun hnone => ?_⟩
  · simp only [get_conversation_history, List.length_map, List.length_reverse,
      historyQuery, List.length_take]
    exact min_le_left _ _
  · exact history_wrap rows customer_id limit
      (historyQuery_sorted_desc rows customer_id limit)
  · exact history_wrap rows customer_id limit
      (historyQuery_sorted_desc_strict rows customer_id limit hdist)
  · simp [get_conversation_history, historyQuery, hnone]

/-- Witness for C1: turns T1..T5 of customer 1 fetched with limit 3 give
exactly [T3, T4, T5], strictly chronological, and a customer with no rows
gets the empty sequence. -/
theorem fetchHistory_witness :
    (get_conversation_history exRows 1 3).length ≤ 3 ∧
    (get_conversation_history exRows 1 3).Pairwise
      (fun a b => a.timestamp < b.timestamp) ∧
    get_conversation_history exRows 9 3 = [] ∧
    get_conversation_history exRows 1 3 =
      [⟨"u3", "a3", 3⟩, ⟨"u4", "a4", 4⟩, ⟨"u5", "a5", 5⟩] :=
  ⟨(fetchHistory_bounded_chronological exRows 1 3).1,
   (fetchHistory_bounded_chronological exRows 1 3).2.2.1 (by decide),
   (fetchHistory_bounded_chronological exRows 9 3).2.2.2 (by decide),
   by decide⟩

/-- C10: the rendered system message (the first assembled message) is a
function of the customer context alone — for a fixed context, any two
history/new-message pairs yield the identical first message, in both apps'
templates. -/
theorem systemMessage_depends_only_on_context (c : CustomerContext)
    (h1 h2 : List Turn) (m1 m2 : String) :
    (build_messages (system_message_pg c) h1 m1).head? =
      (build_messages (system_message_pg c) h2 m2).head? ∧
    (build_messages (system_prompt_sql c) h1 m1).head? =
      (build_messages (system_prompt_sql c) h2 m2).head? :=
  ⟨rfl, rfl⟩

/-- C6 counterexample: the agents-sql `save_conversation` (app.py 98-105)
inserts its row but returns Python `None`, not the backend-generated
identifier (here 7), so the claim fails for that implementation. -/
theorem saveConversation_returns_no_id :
    (save_conversation emptyDb 7 3 1 "hi" "there").1.conversation_history.length = 1 ∧
    (save_conversation emptyDb 7 3 1 "hi" "there").2 = none ∧
    (save_conversation emptyDb 7 3 1 "hi" "there").2 ≠ some 7 := by
  decide

/-- C6 amended: every writer inserts exactly one row (the new history is
the old one plus the single new row); `PostgreSQLAdapter.store_conversation`
and `SQLDatabaseAdapter.store_conversation` return the backend-generated
identifier, while the agents-sql `save_conversation` inserts the row but
returns no identifier. -/
theorem storeTurn_one_row_and_id (db : Database) (next_id now customer_id : Nat)
    (user_message ai_response : String) :
    (pg_store_conversation db next_id now customer_id user_message
        ai_response).1.conversation_history =
      db.conversation_history ++
        [⟨next_id, customer_id, user_message, ai_response, now⟩] ∧
    (pg_store_conversation db next_id now customer_id user_message ai_response).2 =
      some next_id ∧
    (sqladapter_store_conversation db next_id now customer_id user_message
        ai_response).1.conversation_history =
      db.conversation_history ++
        [⟨next_id, customer_id, user_message, ai_response, now⟩] ∧
    (sqladapter_store_conversation db next_id now customer_id user_message
        ai_response).2 = some next_id ∧
    (save_conversation db next_id now customer_id user_message
        ai_response).1.conversation_history =
      db.conversation_history ++
        [⟨next_id, customer_id, user_message, ai_response, now⟩] ∧
    (save_conversation db next_id now customer_id user_message ai_response).2 =
      none :=
  ⟨rfl, rfl, rfl, rfl, rfl, rfl⟩

/-- C7: `create_adapter` matches the backend identifier case-insensitively
(it depends only on the lowercased string) against the closed set `sql`,
`cosmos`, `postgresql`; every identifier outside that set fails with the
configuration error naming the (lowercased) offending value, and the
factory only builds the adapter value — no storage connection exists until
a repository operation runs. -/
theorem selectRepository_closed_set (v : String)
    (h : strToLower v ∉ (["sql", "cosmos", "postgresql"] : List String)) :
    create_adapter v = .error ("Unknown database type: " ++ strToLower v) ∧
    (∀ w : String, strToLower w = strToLower v →
      create_adapter w = .error ("Unknown database type: " ++ strToLower v)) ∧
    (∀ w : String, (∃ k, create_adapter w = .ok k) ↔
      strToLower w ∈ (["sql", "cosmos", "postgresql"] : List String)) := by
  simp only [List.mem_cons, List.not_mem_nil, or_false, not_or] at h
  obtain ⟨h1, h2, h3⟩ := h
  refine ⟨?_, ?_, ?_⟩
  · rw [create_adapter_cases, if_neg h1, if_neg h2, if_neg h3]
  · intro w hw
    rw [create_adapter_cases, hw, if_neg h1, if_neg h2, if_neg h3]
  · intro w
    rw [create_adapter_cases]
    split_ifs with e1 e2 e3 <;> simp_all

/-- Witness for C7 at the unknown identifier `MySQL`: the lookup is
rejected with the message naming `mysql`. -/
theorem selectRepository_witness :
    strToLower "MySQL" ∉ (["sql", "cosmos", "postgresql"] : List String) ∧
    create_adapter "MySQL" = .error ("Unknown database type: " ++ strToLower "MySQL") :=
  ⟨by decide, (selectRepository_closed_set "MySQL" (by decide)).1⟩

/-- C3: a customer that exists in storage with zero orders gets a present
context — not absent — with `total_orders = 0`, `total_spent = 0` and empty
`recent_orders`, in both backend implementations (query-level `COALESCE`
for PostgreSQL, the in-code falsy check for the SQL dialect both send the
NULL sum to zero). -/
theorem zeroOrders_context_present (db : Database) (customer_id : Nat)
    (c : Customer)
    (hc : db.customers.find? (fun x => x.customer_id == customer_id) = some c)
    (ho : db.orders.filter (fun o => o.customer_id == customer_id) = []) :
    (get_customer_context_pg db customer_id).map CustomerContext.total_orders =
      some 0 ∧
    (get_customer_context_pg db customer_id).map CustomerContext.total_spent =
      some 0 ∧
    (get_customer_context_pg db customer_id).map CustomerContext.recent_orders =
      some [] ∧
    (get_customer_context_sql db customer_id).map CustomerContext.total_orders =
      some 0 ∧
    (get_customer_context_sql db customer_id).map CustomerContext.total_spent =
      some 0 ∧
    (get_customer_context_sql db customer_id).map CustomerContext.recent_orders =
      some [] := by
  have hrec : recentOrdersQuery db customer_id = [] := by
    simp [recentOrdersQuery, ho]
  simp [get_customer_context_pg, get_customer_context_sql, aggregateQuery,
    hc, ho, hrec, sqlSum, pyFloatOrZero]

/-- Witness for C3: customer 1 of `zeroOrdersDb` has no orders and still
gets a present, all-zero context from both implementations. -/
theorem zeroOrders_witness :
    zeroOrdersDb.customers.find? (fun x => x.customer_id == 1) =
      some ⟨1, "Ada", "Lovelace", "ada@example.com", "555-0001"⟩ ∧
    zeroOrdersDb.orders.filter (fun o => o.customer_id == 1) = [] ∧
    (get_customer_context_pg zeroOrdersDb 1).map CustomerContext.total_orders =
      some 0 ∧
    (get_customer_context_pg zeroOrdersDb 1).map CustomerContext.total_spent =
      some 0 ∧
    (get_customer_context_pg zeroOrdersDb 1).map CustomerContext.recent_orders =
      some [] ∧
    (get_customer_context_sql zeroOrdersDb 1).map CustomerContext.recent_orders =
      some [] := by
  have h := zeroOrders_context_present zeroOrdersDb 1
    ⟨1, "Ada", "Lovelace", "ada@example.com", "555-0001"⟩ (by decide) (by decide)
  exact ⟨by decide, by decide, h.1, h.2.1, h.2.2.1, h.2.2.2.2.2⟩

/-- C4: for a customer identifier absent from storage, both
`generate_ai_response` bodies return the fixed not-found text with the
storage state unchanged (no turn persisted) and without invoking the model
capability, and the `/api/chat` boundary wraps that text in the success
payload — the `.response` constructor, not the error path. -/
theorem customerNotFound_success_path (db : Database)
    (model : List Message → String) (next_id now customer_id : Nat)
    (user_message : String)
    (habs : db.customers.find? (fun c => c.customer_id == customer_id) = none)
    (hcid : customer_id ≠ 0) (hmsg : user_message ≠ "") :
    generate_ai_response_sql db model next_id now customer_id user_message =
      ⟨"Customer not found. Please check your customer ID.", db, false⟩ ∧
    generate_ai_response_pg db model next_id now customer_id user_message =
      ⟨pg_not_found_message, db, false⟩ ∧
    chat (fun cid msg =>
        .ok (generate_ai_response_sql db model next_id now cid msg).reply)
      (some customer_id) (some user_message) =
      .response "Customer not found. Please check your customer ID." ∧
    chat (fun cid msg =>
        .ok (generate_ai_response_pg db model next_id now cid msg).reply)
      (some customer_id) (some user_message) =
      .response pg_not_found_message := by
  have hs : generate_ai_response_sql db model next_id now customer_id
      user_message =
      ⟨"Customer not found. Please check your customer ID.", db, false⟩ := by
    simp [generate_ai_response_sql, get_customer_context_sql, aggregateQuery,
      habs]
  have hp : generate_ai_response_pg db model next_id now customer_id
      user_message = ⟨pg_not_found_message, db, false⟩ := by
    simp [generate_ai_response_pg, get_customer_context_pg, aggregateQuery,
      habs]
  refine ⟨hs, hp, ?_, ?_⟩
  · simp [chat, hcid, hmsg, hs]
  · simp [chat, hcid, hmsg, hp]

/-- Witness for C4: an empty store knows no customer 1, and the chat
boundary answers with the success payload holding the fixed not-found
message. -/
theorem customerNotFound_witness :
    emptyDb.customers.find? (fun c => c.customer_id == 1) = none ∧
    chat (fun cid msg =>
        .ok (generate_ai_response_sql emptyDb (fun _ => "model reply") 1 1
          cid msg).reply)
      (some 1) (some "Where is my order?") =
      .response "Customer not found. Please check your customer ID." := by
  have h := customerNotFound_success_path emptyDb (fun _ => "model reply") 1 1 1
    "Where is my order?" (by decide) (by decide) (by decide)
  exact ⟨by decide, h.2.2.1⟩

/-- C5 counterexample: in `lineItemsDb` customer 1 owns order 11, which has
no line items; the claim says such an order still appears among
`recent_orders` with empty `products`, but the inner join
`orders JOIN order_items JOIN products` drops the whole group, so
`recent_orders` holds only order 10. -/
theorem orderWithoutItems_missing_from_recent :
    (lineItemsDb.orders.filter (fun o => o.customer_id == 1)).map
      Order.order_id = [10, 11] ∧
    orderProducts lineItemsDb 11 = [] ∧
    (recentOrdersQuery lineItemsDb 1).map OrderSummary.order_id = [10] ∧
    (recentOrdersQuery lineItemsDb 1).filter (fun s => s.order_id == 11) = [] ∧
    (get_customer_context_pg lineItemsDb 1).map CustomerContext.recent_orders =
      some [⟨10, "20", 10000, "shipped", "Widget, Gadget"⟩] := by
  decide

/-- C5 amended: every order summary that does appear in `recent_orders`
carries as `products` the comma-join of that order's product names, and it
always has at least one joined line item — an order with no line items is
omitted from `recent_orders` entirely by the inner join rather than
appearing with empty `products`. -/
theorem recentOrders_products_commaJoin (db : Database) (customer_id : Nat)
    (s : OrderSummary) (hs : s ∈ recentOrdersQuery db customer_id) :
    s.products = joinComma (orderProducts db s.order_id) ∧
    orderProducts db s.order_id ≠ [] := by
  unfold recentOrdersQuery at hs
  obtain ⟨o, ho, hso⟩ := List.mem_map.mp hs
  subst hso
  refine ⟨rfl, ?_⟩
  show orderProducts db o.order_id ≠ []
  have ho2 := List.take_subset 5 _ ho
  have ho3 := (List.perm_insertionSort
    (fun a b : Order => b.order_date ≤ a.order_date) _).subset ho2
  have ho4 := (List.mem_filter.mp ho3).2
  intro hnil
  simp [hnil] at ho4

/-- Witness for C5 (amended): order 10 appears in `recent_orders` of
`lineItemsDb` and its `products` is the comma-join `Widget, Gadget`. -/
theorem recentOrders_products_witness :
    (⟨10, "20", 10000, "shipped", "Widget, Gadget"⟩ : OrderSummary) ∈
      recentOrdersQuery lineItemsDb 1 ∧
    "Widget, Gadget" = joinComma (orderProducts lineItemsDb 10) ∧
    orderProducts lineItemsDb 10 ≠ [] := by
  have h := recentOrders_products_commaJoin lineItemsDb 1
    ⟨10, "20", 10000, "shipped", "Widget, Gadget"⟩ (by decide)
  exact ⟨by decide, h.1, h.2⟩

/-- C8 counterexample: in `PostgreSQLAdapter.store_conversation` a failing
`cursor.execute` raises after `psycopg2.connect` succeeded; the
`try/except` re-raises without any `close()`, so the operation terminates
exceptionally with one connection opened and none closed. -/
theorem pg_store_leaks_connection_on_failure :
    (pg_store_conversation_conns ⟨true, false, true, true, true, true, true⟩
      noConns).1 = .error "execute failed" ∧
    (pg_store_conversation_conns ⟨true, false, true, true, true, true, true⟩
      noConns).2.opened = 1 ∧
    (pg_store_conversation_conns ⟨true, false, true, true, true, true, true⟩
      noConns).2.closed = 0 :=
  ⟨rfl, rfl, rfl⟩

/-- C8 amended: the release-on-every-exit-path guarantee holds for the
`with`-scoped `SQLDatabaseAdapter` operations under every failure pattern,
and for the `PostgreSQLAdapter` operations on the success paths and on the
absent-customer early return — but not on `PostgreSQLAdapter` exception
paths, where the connection stays open (see the counterexample). -/
theorem connection_release_paths :
    ((pg_store_conversation_conns ⟨true, true, true, true, true, true, true⟩
        noConns).2.opened =
      (pg_store_conversation_conns ⟨true, true, true, true, true, true, true⟩
        noConns).2.closed) ∧
    ((pg_get_conversation_history_conns
        ⟨true, true, true, true, true, true, true⟩ noConns).2.opened =
      (pg_get_conversation_history_conns
        ⟨true, true, true, true, true, true, true⟩ noConns).2.closed) ∧
    ((pg_get_customer_context_conns
        ⟨true, true, true, true, true, true, true⟩ noConns).2.opened =
      (pg_get_customer_context_conns
        ⟨true, true, true, true, true, true, true⟩ noConns).2.closed) ∧
    ((pg_get_customer_context_conns
        ⟨true, true, true, true, true, true, false⟩ noConns).2.opened =
      (pg_get_customer_context_conns
        ⟨true, true, true, true, true, true, false⟩ noConns).2.closed) ∧
    (∀ env : StepEnv,
      (sqladapter_store_conversation_conns env noConns).2.opened =
        (sqladapter_store_conversation_conns env noConns).2.closed) ∧
    (∀ env : StepEnv,
      (sqladapter_get_conversation_history_conns env noConns).2.opened =
        (sqladapter_get_conversation_history_conns env noConns).2.closed) ∧
    (∀ env : StepEnv,
      (sqladapter_get_customer_context_conns env noConns).2.opened =
        (sqladapter_get_customer_context_conns env noConns).2.closed) := by
  refine ⟨rfl, rfl, rfl, rfl, ?_, ?_, ?_⟩ <;>
    · rintro ⟨c, e, f, cm, e2, f2, cf⟩
      cases c <;> cases e <;> cases f <;> cases cm <;> cases e2 <;>
        cases f2 <;> cases cf <;> rfl

/-- C9 counterexample: the `/api/chat` handlers return `str(e)` verbatim in
the error payload; an underlying driver exception whose message embeds the
configured password (as ODBC connection-failure text can, the connection
string carries `PWD=...`) therefore reaches the user with the password
intact — the boundary performs no sanitization. -/
theorem chat_error_text_can_carry_credentials :
    chat (fun _ _ =>
        .error "connection failed: PWD=hunter2;SERVER=db.example.com")
      (some 1) (some "hi") =
      .errorPayload "connection failed: PWD=hunter2;SERVER=db.example.com"
        500 ∧
    containsStr "connection failed: PWD=hunter2;SERVER=db.example.com"
      "hunter2" = true := by
  decide

/-- C9 amended: every failure other than the not-found path surfaces as the
error payload whose text is exactly the underlying exception message — so
the user-visible error text excludes a configured secret precisely when
the underlying exception message does; no sanitization is applied by the
boundary. -/
theorem chat_error_payload_is_exception_text
    (run : Nat → String → Except String String) (customer_id : Nat)
    (message e secret : String) (hcid : customer_id ≠ 0) (hmsg : message ≠ "")
    (hrun : run customer_id message = .error e) :
    chat run (some customer_id) (some message) = .errorPayload e 500 ∧
    errText (chat run (some customer_id) (some message)) = some e ∧
    (containsStr e secret = false →
      ∀ t, errText (chat run (some customer_id) (some message)) = some t →
        containsStr t secret = false) := by
  have h1 : chat run (some customer_id) (some message) =
      .errorPayload e 500 := by
    simp [chat, hcid, hmsg, hrun]
  refine ⟨h1, by rw [h1]; rfl, ?_⟩
  intro hno t ht
  rw [h1] at ht
  simp [errText] at ht
  subst ht
  exact hno

/-- Witness for C9 (amended): a storage failure with message `timeout`
yields the error payload `timeout`, which excludes the secret. -/
theorem chat_error_payload_witness :
    chat (fun _ _ => .error "timeout") (some 1) (some "hi") =
      .errorPayload "timeout" 500 ∧
    containsStr "timeout" "hunter2" = false := by
  have h := chat_error_payload_is_exception_text (fun _ _ => .error "timeout")
    1 "hi" "timeout" "hunter2" (by decide) (by decide) rfl
  exact ⟨h.1, by decide⟩

end LabChat
